import Mathlib

/-!
Shallow embedding of `homework.py` (and its exception module `exceptions.py`):
a Telegram bot that polls the Yandex Practicum homework-status API on a fixed
interval and relays status transitions to a chat.

Python values that flow through the program (JSON payloads, dict fields,
loop variables) are modelled by the inductive type `PyVal`; Python's raised
exceptions are modelled by `Except Exc`.  Each Python function of the source
becomes a Lean function of the same name; the body of `main`'s `while True`
loop becomes the state-transition function `cycle` on `LoopState`, with the
per-cycle external world (environment variables, the HTTP response, the
Telegram transport outcome) passed as explicit inputs.
-/

/-- A Python value as it appears in this program: strings, integers, lists and
string-keyed dicts (the shapes produced by `response.json()`). -/
inductive PyVal where
  | str : String → PyVal
  | int : Int → PyVal
  | list : List PyVal → PyVal
  | dict : List (String × PyVal) → PyVal
deriving Repr

/-- Dict field lookup (`d[key]` / `key in d`), first match wins; the dicts
built in this development have distinct keys. -/
def pyLookup : List (String × PyVal) → String → Option PyVal
  | [], _ => none
  | (k, v) :: rest, key => if k == key then some v else pyLookup rest key

mutual
/-- Python `==` on values: structural equality.  (Python dict equality is
order-insensitive; here it is compared in field order, which agrees with
Python on all comparisons the program performs — `status != homework['status']`
only ever compares strings.) -/
def pyBeq : PyVal → PyVal → Bool
  | .str a, .str b => a == b
  | .int a, .int b => a == b
  | .list a, .list b => pyBeqList a b
  | .dict a, .dict b => pyBeqDict a b
  | _, _ => false

def pyBeqList : List PyVal → List PyVal → Bool
  | [], [] => true
  | a :: as2, b :: bs => pyBeq a b && pyBeqList as2 bs
  | _, _ => false

def pyBeqDict : List (String × PyVal) → List (String × PyVal) → Bool
  | [], [] => true
  | (k1, v1) :: r1, (k2, v2) :: r2 => k1 == k2 && pyBeq v1 v2 && pyBeqDict r1 r2
  | _, _ => false
end

mutual
/-- Python `repr()` of a value (used by `str()` on containers). -/
def pyRepr : PyVal → String
  | .str s => "\x27" ++ s ++ "\x27"
  | .int n => toString n
  | .list l => "[" ++ pyReprList l ++ "]"
  | .dict l => "\x7b" ++ pyReprDict l ++ "\x7d"

def pyReprList : List PyVal → String
  | [] => ""
  | [v] => pyRepr v
  | v :: rest => pyRepr v ++ ", " ++ pyReprList rest

def pyReprDict : List (String × PyVal) → String
  | [] => ""
  | [(k, v)] => "\x27" ++ k ++ "\x27: " ++ pyRepr v
  | (k, v) :: rest => "\x27" ++ k ++ "\x27: " ++ pyRepr v ++ ", " ++ pyReprDict rest
end

/-- Python `str()` of a value, as used by f-string interpolation. -/
def pyToString : PyVal → String
  | .str s => s
  | v => pyRepr v

/-- The exceptions this program can raise.  `HTTPException` and
`YandexAPIRequestError` come from `exceptions.py` (both subclasses of
`CheckOutProjectException`); the rest are Python built-ins as raised by
`homework.py`.  `RequestException` models the `response.RequestException`
raised at line 84 of `get_api_answer`; `GenericExc` models a bare
`raise Exception(message)`; `SystemExit` carries the optional code passed
to `sys.exit` (`check_tokens` calls it with no argument). -/
inductive Exc where
  | ConnectionError : String → Exc
  | HTTPException : String → Exc
  | RequestException : String → Exc
  | TypeError : String → Exc
  | KeyError : String → Exc
  | IndexError : Exc
  | YandexAPIRequestError : String → Exc
  | GenericExc : String → Exc
  | SystemExit : Option Int → Exc
deriving DecidableEq, Repr

/-- Python `str(error)`: the message of the exception.  `str(KeyError(m))`
quotes its argument; an `IndexError` from list indexing reads
`list index out of range`. -/
def excStr : Exc → String
  | .ConnectionError m => m
  | .HTTPException m => m
  | .RequestException m => m
  | .TypeError m => m
  | .KeyError m => "\x27" ++ m ++ "\x27"
  | .IndexError => "list index out of range"
  | .YandexAPIRequestError m => m
  | .GenericExc m => m
  | .SystemExit none => ""
  | .SystemExit (some n) => toString n

/-- The process exit status produced by an uncaught `SystemExit`:
`sys.exit()` (argument `None`) exits with status 0. -/
def exitStatus : Option Int → Int
  | none => 0
  | some n => n

/- Module-level constants of `homework.py` (lines 25-35). -/

def RETRY_PERIOD : Nat := 600

def THREE_MONTHS : Int := 131400 * 60

def LENGTH : Nat := 400

def HOMEWORK_VERDICTS : List (String × String) :=
  [("approved", "Работа проверена: ревьюеру всё понравилось. Ура!"),
   ("reviewing", "Работа взята на проверку ревьюером."),
   ("rejected", "Работа проверена: у ревьюера есть замечания.")]

/-- The three environment variables read at module load
(`PRACTICUM_TOKEN`, `TELEGRAM_TOKEN`, `TELEGRAM_CHAT_ID`); `os.getenv`
yields `None` when a variable is unset. -/
structure Env where
  practicumToken : Option String
  telegramToken : Option String
  telegramChatId : Option String
deriving Repr

/-- Python truthiness of an `os.getenv` result: `None` and the empty string
are falsy. -/
def truthy : Option String → Bool
  | none => false
  | some s => !(s == "")

/-- `check_tokens` (lines 38-48): if any of the three variables is falsy,
log critical and call `sys.exit()` (no argument); otherwise return `True`. -/
def check_tokens (env : Env) : Except Exc Bool :=
  if !truthy env.practicumToken || !truthy env.telegramToken
      || !truthy env.telegramChatId then
    Except.error (Exc.SystemExit none)
  else
    Except.ok true

/-- Outcome of one `bot.send_message` attempt against the Telegram
transport: either it delivers, or it raises `telegram.error.TelegramError`. -/
inductive Transport where
  | success
  | telegramError
deriving DecidableEq, Repr

/-- `send_message` (lines 51-62): sends `message[:LENGTH]` to the chat and
logs on success; on `TelegramError` it logs the failure and then raises a
bare `Exception('сбой при отправке сообщения в Telegram')`.  Returns the
list of texts that actually reached the channel, paired with the
normal/raising outcome. -/
def send_message (tr : Transport) (message : String) :
    List String × Except Exc Unit :=
  match tr with
  | .success => ([message.take LENGTH], Except.ok ())
  | .telegramError =>
      ([], Except.error (Exc.GenericExc "сбой при отправке сообщения в Telegram"))

/-- The observable part of one HTTP exchange with the Yandex API:
whether `requests.get` raised `ConnectionError`, and otherwise the
response's status code, `.text`, and parsed `.json()` body.  (The
`except response.JSONDecodeError` clause at line 75 is ill-formed Python —
`response` has no such attribute — and is not exercised here; `.json()` at
line 88 is modelled as the already-parsed `body`.) -/
structure HttpResp where
  connError : Bool
  statusCode : Nat
  text : String
  body : PyVal
deriving Repr

/-- `get_api_answer` (lines 65-88).  On a connection failure, re-raises
`ConnectionError`.  On a non-200 status code it builds the detail string and
then: raises `HTTPException('ошибка авторизации…')` whenever the code is not
401; otherwise (code 401, hence not 400) raises `HTTPException('ошибка
запроса…')`; the final `raise response.RequestException('некорректный
ответ…')` at line 84 requires the code to equal both 401 and 400.  On a 200
it returns the parsed body. -/
def get_api_answer (resp : HttpResp) : Except Exc PyVal :=
  if resp.connError then
    Except.error (Exc.ConnectionError "непроходит запрос к Yandex API.")
  else if resp.statusCode != 200 then
    let detail := "Код ответа: " ++ toString resp.statusCode
      ++ ", сообщение об ошибке: " ++ resp.text
    if resp.statusCode != 401 then
      Except.error (Exc.HTTPException ("ошибка авторизации от Yandex API. " ++ detail))
    else if resp.statusCode != 400 then
      Except.error (Exc.HTTPException ("ошибка запроса к Yandex API. " ++ detail))
    else
      Except.error (Exc.RequestException ("некорректный ответ от Yandex API. " ++ detail))
  else
    Except.ok resp.body

/-- `check_response` (lines 91-124).  Requires the response to be a dict
(else `TypeError`), to contain the key `homeworks` (else `KeyError`), whose
value must be a list (else `TypeError`).  Line 106 then inspects
`response['homeworks'][0]`: on an empty list this raises `IndexError`
(`list index out of range`); a non-dict first element raises `TypeError`.
The function finally returns `response['homeworks'][0]` — the first record,
not the response itself. -/
def check_response (response : PyVal) : Except Exc PyVal :=
  match response with
  | .dict fields =>
    match pyLookup fields "homeworks" with
    | none => Except.error (Exc.KeyError "Отсутствуют необходимый ключ homeworks")
    | some hws =>
      match hws with
      | .list l =>
        match l with
        | [] => Except.error Exc.IndexError
        | first :: _ =>
          match first with
          | .dict _ => Except.ok first
          | _ => Except.error
              (Exc.TypeError "ответ API не соответствует документации (не словарь)")
      | _ => Except.error
          (Exc.TypeError "ответ API не соответствует документации (не список)")
  | _ => Except.error
      (Exc.TypeError "ответ API не соответствует документации (не словарь)")

/-- Python subscription `v[key]` with a string key: field of a dict or
`KeyError`; a `TypeError` on non-dicts (which `homework.py` never catches). -/
def pyGetItem (v : PyVal) (key : String) : Except Exc PyVal :=
  match v with
  | .dict fields =>
    match pyLookup fields key with
    | some x => Except.ok x
    | none => Except.error (Exc.KeyError key)
  | _ => Except.error (Exc.TypeError "value is not subscriptable by a string key")

/-- `parse_status` (lines 127-144).  Reads `homework['homework_name']` and
`homework['status']`, turning a `KeyError` into
`YandexAPIRequestError('отсутствие ожидаемых ключей в ответе API')`; looks
the status up in `HOMEWORK_VERDICTS`, turning a `KeyError` into
`YandexAPIRequestError('неожиданный статус…')` (an unhashable status value —
a list or dict — would raise an uncaught `TypeError` instead); returns the
f-string `Изменился статус проверки работы "{homework_name}". {verdict}`. -/
def parse_status (homework : PyVal) : Except Exc String :=
  match homework with
  | .dict fields =>
    match pyLookup fields "homework_name", pyLookup fields "status" with
    | some name, some statusVal =>
      (match statusVal with
      | .str s =>
        match HOMEWORK_VERDICTS.lookup s with
        | some verdict =>
            Except.ok ("Изменился статус проверки работы \"" ++ pyToString name
              ++ "\". " ++ verdict)
        | none => Except.error (Exc.YandexAPIRequestError
            "неожиданный статус домашней работы, обнаруженный в ответе API")
      | .int _ => Except.error (Exc.YandexAPIRequestError
          "неожиданный статус домашней работы, обнаруженный в ответе API")
      | _ => Except.error (Exc.TypeError "unhashable type"))
    | _, _ => Except.error (Exc.YandexAPIRequestError
        "отсутствие ожидаемых ключей в ответе API")
  | _ => Except.error (Exc.TypeError "value is not subscriptable by a string key")

/-- The loop-local state of `main` (lines 150-151): `timestamp` (set once to
`int(time.time()) - THREE_MONTHS` and never reassigned anywhere in the
loop), `status` (initially `''`, later holds `homework['status']`), and
`new_error` (initially `''`; `none` models that initial string — it is only
ever reassigned inside the dead branch at line 168, to the caught
exception). -/
structure LoopState where
  timestamp : Int
  status : PyVal
  newError : Option Exc
deriving Repr

/-- The state `main` enters the loop with. -/
def initialState (now : Int) : LoopState :=
  { timestamp := now - THREE_MONTHS, status := PyVal.str "", newError := none }

/-- What one execution of the loop body produces: the next state, the texts
delivered to the Telegram chat this cycle, the process exit status if a
`SystemExit` escaped (the `except Exception` clause does not catch it), and
any other exception escaping the loop body (which would end `main`). -/
structure CycleResult where
  state : LoopState
  sent : List String
  exitCode : Option Int
  crash : Option Exc
deriving Repr

/-- Inside an active `except` block, `sys.exc_info()` returns the
`(type, value, traceback)` triple of the exception being handled — a
non-empty tuple, hence truthy.  Line 166 tests `not sys.exc_info()` there. -/
def sys_exc_info_truthy : Bool := true

/-- Line 166's second conjunct, `error != new_error`: `error` is the freshly
caught exception object and `new_error` is `''` or a previously caught
exception object; Python's default exception equality is object identity,
so the comparison is always `True`. -/
def error_ne_last (_e : Exc) (_last : Option Exc) : Bool := true

/-- The `try` block of one loop iteration (lines 153-162): `check_tokens`,
`get_api_answer` with the (never-updated) timestamp, `check_response`,
`parse_status`, then `if status != homework['status']: send_message(bot,
reply)` and `status = homework['status']`.  Returns the texts delivered so
far and either the updated state or the raised exception. -/
def cycleTry (env : Env) (resp : HttpResp) (tr : Transport) (st : LoopState) :
    List String × Except Exc LoopState :=
  match check_tokens env with
  | .error e => ([], Except.error e)
  | .ok _ =>
    match get_api_answer resp with
    | .error e => ([], Except.error e)
    | .ok response =>
      match check_response response with
      | .error e => ([], Except.error e)
      | .ok homework =>
        match parse_status homework with
        | .error e => ([], Except.error e)
        | .ok reply =>
          match pyGetItem homework "status" with
          | .error e => ([], Except.error e)
          | .ok hwStatus =>
            if pyBeq st.status hwStatus then
              ([], Except.ok { st with status := hwStatus })
            else
              match send_message tr reply with
              | (sent, .error e) => (sent, Except.error e)
              | (sent, .ok _) => (sent, Except.ok { st with status := hwStatus })

/-- One full iteration of `main`'s `while True` loop (lines 152-169).  A
normal `try` block yields the new state.  A raised `SystemExit` is not an
`Exception`, so it escapes and terminates the process with its exit status.
Any other exception reaches `except Exception` (lines 163-168): the failure
is logged, and the notification at line 167 is sent only when
`not sys.exc_info() and error != new_error` holds — where the first
conjunct is always false inside the handler; were it sent, a delivery
failure there would escape the loop (`crash`). -/
def cycle (env : Env) (resp : HttpResp) (tr : Transport) (st : LoopState) :
    CycleResult :=
  match cycleTry env resp tr st with
  | (sent, .ok st2) =>
      { state := st2, sent := sent, exitCode := none, crash := none }
  | (sent, .error (.SystemExit c)) =>
      { state := st, sent := sent, exitCode := some (exitStatus c), crash := none }
  | (sent, .error e) =>
      let message := "Сбой в работе программы: " ++ excStr e
      if !sys_exc_info_truthy && error_ne_last e st.newError then
        match send_message tr message with
        | (sent2, .ok _) =>
            { state := { st with newError := some e }, sent := sent ++ sent2,
              exitCode := none, crash := none }
        | (sent2, .error e2) =>
            { state := st, sent := sent ++ sent2, exitCode := none, crash := some e2 }
      else
        { state := st, sent := sent, exitCode := none, crash := none }

/-- The cycle's `try` block raised (and the exception was caught at the
cycle boundary or escaped): the cycle ended in failure. -/
def cycleFails (env : Env) (resp : HttpResp) (tr : Transport) (st : LoopState) :
    Prop :=
  ∃ sent e, cycleTry env resp tr st = (sent, Except.error e)

/-- C4: the claim says a non-success status outside the 401/400 class fails
with the unexpected-response kind; evaluating the code at HTTP status 500
(text `Internal Server Error`) shows it raises `HTTPException` — and with
the authorization-failure text — because the `!= UNAUTHORIZED` check fires
for every code other than 401.  The 401/400 half of the claim does hold:
both codes also yield `HTTPException` with the code and detail text. -/
theorem c4_non_auth_code_raises_http_exception :
    get_api_answer
        { connError := false, statusCode := 500,
          text := "Internal Server Error", body := PyVal.dict [] } =
      Except.error (Exc.HTTPException
        "ошибка авторизации от Yandex API. Код ответа: 500, сообщение об ошибке: Internal Server Error") := rfl

/-- C8: `parse_status` on the record with name `hw1` and status `approved`
returns exactly the specified transition text, and a cycle receiving that
record while the tracked status is `reviewing` updates the tracked status
to `approved`. -/
theorem c8_example_approved_message :
    parse_status (PyVal.dict [("homework_name", PyVal.str "hw1"),
        ("status", PyVal.str "approved")]) =
      Except.ok "Изменился статус проверки работы \"hw1\". Работа проверена: ревьюеру всё понравилось. Ура!" ∧
    (cycle
        { practicumToken := some "p", telegramToken := some "t",
          telegramChatId := some "c" }
        { connError := false, statusCode := 200, text := "",
          body := PyVal.dict [("homeworks", PyVal.list [PyVal.dict
            [("homework_name", PyVal.str "hw1"),
             ("status", PyVal.str "approved")]])] }
        Transport.success
        { timestamp := 100, status := PyVal.str "reviewing",
          newError := none }).state.status = PyVal.str "approved" := ⟨rfl, rfl⟩

/-- C10: for every response whose status code is not 200 (and no transport
failure), `get_api_answer` takes one of the two `HTTPException` branches;
the final `response.RequestException` branch at line 84 is unreachable for
every status code. -/
theorem c10_request_exception_unreachable (resp : HttpResp)
    (hconn : resp.connError = false) (hcode : resp.statusCode ≠ 200) :
    (∃ s, get_api_answer resp = Except.error (Exc.HTTPException s)) ∧
    ∀ s, get_api_answer resp ≠ Except.error (Exc.RequestException s) := by
  unfold get_api_answer
  simp only [hconn, if_false, Bool.false_eq_true]
  have h2 : (resp.statusCode != 200) = true := by simpa using hcode
  rw [h2]
  by_cases h401 : resp.statusCode = 401
  · have : (resp.statusCode != 401) = false := by simp [h401]
    rw [this]
    have : (resp.statusCode != 400) = true := by simp [h401]
    rw [this]
    simp
  · have : (resp.statusCode != 401) = true := by simpa using h401
    rw [this]
    simp

/-- C10 witness: instantiated at status code 404. -/
theorem c10_request_exception_unreachable_witness :
    (∃ s, get_api_answer
        { connError := false, statusCode := 404, text := "nf",
          body := PyVal.dict [] } = Except.error (Exc.HTTPException s)) ∧
    ∀ s, get_api_answer
        { connError := false, statusCode := 404, text := "nf",
          body := PyVal.dict [] } ≠ Except.error (Exc.RequestException s) :=
  c10_request_exception_unreachable _ rfl (by decide)

/-- C9 counterexample: with `PRACTICUM_TOKEN` unset, the process exits with
status 0 — `sys.exit()` is called with no argument — not with a non-zero
outcome as claimed. -/
theorem c9_exit_code_zero_counterexample :
    (cycle
        { practicumToken := none, telegramToken := some "t",
          telegramChatId := some "c" }
        { connError := false, statusCode := 200, text := "",
          body := PyVal.dict [] }
        Transport.success
        { timestamp := 100, status := PyVal.str "", newError := none }).exitCode
      = some 0 := rfl

/-- C9 amended: if any of the three required configuration values is absent
(falsy) at startup, `check_tokens` raises `SystemExit` which escapes the
`except Exception` handler, so the process exits immediately and without
retrying — but with exit status 0, not a non-zero one. -/
theorem c9_missing_config_exits_zero (env : Env) (resp : HttpResp)
    (tr : Transport) (st : LoopState)
    (h : truthy env.practicumToken = false ∨ truthy env.telegramToken = false
      ∨ truthy env.telegramChatId = false) :
    check_tokens env = Except.error (Exc.SystemExit none) ∧
    cycle env resp tr st =
      { state := st, sent := [], exitCode := some 0, crash := none } := by
  have hct : check_tokens env = Except.error (Exc.SystemExit none) := by
    unfold check_tokens
    rcases h with h | h | h <;> simp [h]
  refine ⟨hct, ?_⟩
  unfold cycle cycleTry
  rw [hct]
  rfl

/-- C9 witness: instantiated with an empty `TELEGRAM_TOKEN`. -/
theorem c9_missing_config_exits_zero_witness :
    check_tokens
        { practicumToken := some "p", telegramToken := some "",
          telegramChatId := some "c" } = Except.error (Exc.SystemExit none) ∧
    cycle
        { practicumToken := some "p", telegramToken := some "",
          telegramChatId := some "c" }
        { connError := false, statusCode := 200, text := "",
          body := PyVal.dict [] }
        Transport.success
        { timestamp := 5, status := PyVal.str "", newError := none } =
      { state := { timestamp := 5, status := PyVal.str "", newError := none },
        sent := [], exitCode := some 0, crash := none } :=
  c9_missing_config_exits_zero _ _ _ _ (Or.inr (Or.inl rfl))

/-- C7 counterexample: for a concrete answer that passes validation,
`check_response` does not return the answer itself — it returns the first
element of the `homeworks` list. -/
theorem c7_check_response_not_passthrough_counterexample :
    check_response (PyVal.dict [("homeworks", PyVal.list [PyVal.dict
        [("homework_name", PyVal.str "x"), ("status", PyVal.str "approved")]])]) =
      Except.ok (PyVal.dict
        [("homework_name", PyVal.str "x"), ("status", PyVal.str "approved")]) ∧
    check_response (PyVal.dict [("homeworks", PyVal.list [PyVal.dict
        [("homework_name", PyVal.str "x"), ("status", PyVal.str "approved")]])]) ≠
      Except.ok (PyVal.dict [("homeworks", PyVal.list [PyVal.dict
        [("homework_name", PyVal.str "x"), ("status", PyVal.str "approved")]])]) := by
  refine ⟨rfl, ?_⟩
  intro h
  simp [check_response, pyLookup] at h

/-- C7 amended: for every answer that is a mapping whose `homeworks` field
is a list with a dict first element, `check_response` returns that first
record (line 124 is `return response['homeworks'][0]`), not the validated
answer itself. -/
theorem c7_check_response_returns_first_record
    (fields hwFields : List (String × PyVal)) (rest : List PyVal)
    (h : pyLookup fields "homeworks" =
      some (PyVal.list (PyVal.dict hwFields :: rest))) :
    check_response (PyVal.dict fields) = Except.ok (PyVal.dict hwFields) := by
  simp [check_response, h]

/-- C7 witness: a two-element record list; the first record is returned. -/
theorem c7_check_response_returns_first_record_witness :
    check_response (PyVal.dict [("homeworks", PyVal.list [PyVal.dict
        [("status", PyVal.str "rejected")], PyVal.int 7])]) =
      Except.ok (PyVal.dict [("status", PyVal.str "rejected")]) :=
  c7_check_response_returns_first_record _ _ _ rfl

/-- C6 counterexample: an answer with an empty record list IS treated as a
failure — `check_response` raises `IndexError` at line 106
(`response['homeworks'][0]`), so the cycle's `try` block fails and the case
is logged by `logger.exception`, not at debug level. -/
theorem c6_empty_list_is_failure_counterexample :
    check_response (PyVal.dict [("homeworks", PyVal.list []),
        ("current_date", PyVal.int 5)]) = Except.error Exc.IndexError ∧
    (cycleTry
        { practicumToken := some "p", telegramToken := some "t",
          telegramChatId := some "c" }
        { connError := false, statusCode := 200, text := "",
          body := PyVal.dict [("homeworks", PyVal.list []),
            ("current_date", PyVal.int 5)] }
        Transport.success
        { timestamp := 100, status := PyVal.str "", newError := none }).2 =
      Except.error Exc.IndexError := ⟨rfl, rfl⟩

/-- C6 amended: for every valid-shaped answer whose record list is empty,
the cycle sends no notification and leaves the tracked status (and all loop
state) unchanged — but the empty list raises `IndexError` inside
`check_response`, so the cycle ends in failure handled at the cycle
boundary (logged at error level), rather than a debug-logged skip. -/
theorem c6_empty_list_no_send_state_unchanged (env : Env) (resp : HttpResp)
    (tr : Transport) (st : LoopState) (bodyFields : List (String × PyVal))
    (htok : check_tokens env = Except.ok true)
    (hapi : get_api_answer resp = Except.ok (PyVal.dict bodyFields))
    (hhw : pyLookup bodyFields "homeworks" = some (PyVal.list [])) :
    cycleTry env resp tr st = ([], Except.error Exc.IndexError) ∧
    cycle env resp tr st =
      { state := st, sent := [], exitCode := none, crash := none } := by
  have hcr : check_response (PyVal.dict bodyFields) = Except.error Exc.IndexError := by
    simp [check_response, hhw]
  have h1 : cycleTry env resp tr st = ([], Except.error Exc.IndexError) := by
    simp only [cycleTry, htok, hapi, hcr]
  refine ⟨h1, ?_⟩
  unfold cycle
  rw [h1]
  rfl

/-- C6 witness: empty `homeworks` list with tracked status `approved`. -/
theorem c6_empty_list_no_send_state_unchanged_witness :
    cycleTry
        { practicumToken := some "p", telegramToken := some "t",
          telegramChatId := some "c" }
        { connError := false, statusCode := 200, text := "",
          body := PyVal.dict [("homeworks", PyVal.list [])] }
        Transport.success
        { timestamp := 7, status := PyVal.str "approved", newError := none } =
      ([], Except.error Exc.IndexError) ∧
    cycle
        { practicumToken := some "p", telegramToken := some "t",
          telegramChatId := some "c" }
        { connError := false, statusCode := 200, text := "",
          body := PyVal.dict [("homeworks", PyVal.list [])] }
        Transport.success
        { timestamp := 7, status := PyVal.str "approved", newError := none } =
      { state := { timestamp := 7, status := PyVal.str "approved",
                   newError := none },
        sent := [], exitCode := none, crash := none } :=
  c6_empty_list_no_send_state_unchanged _ _ _ _ _ rfl rfl rfl

/-- C1: for every valid answer whose record list is non-empty and whose
first record's status differs from the tracked status, one cycle (with a
working delivery channel) sends exactly one notification whose text is the
formatted transition message for that record (delivered through the
notifier's fixed 400-character truncation), and sets the tracked status to
the new status code, leaving timestamp and last-error state unchanged. -/
theorem c1_transition_sends_one_notification
    (env : Env) (resp : HttpResp) (st : LoopState)
    (bodyFields hwFields : List (String × PyVal)) (rest : List PyVal)
    (name : PyVal) (s verdict : String)
    (htok : check_tokens env = Except.ok true)
    (hapi : get_api_answer resp = Except.ok (PyVal.dict bodyFields))
    (hhw : pyLookup bodyFields "homeworks" =
      some (PyVal.list (PyVal.dict hwFields :: rest)))
    (hname : pyLookup hwFields "homework_name" = some name)
    (hstat : pyLookup hwFields "status" = some (PyVal.str s))
    (hverd : HOMEWORK_VERDICTS.lookup s = some verdict)
    (hdiff : pyBeq st.status (PyVal.str s) = false) :
    cycle env resp Transport.success st =
      { state := { st with status := PyVal.str s },
        sent := [String.take ("Изменился статус проверки работы \""
          ++ pyToString name ++ "\". " ++ verdict) LENGTH],
        exitCode := none, crash := none } := by
  have hcr : check_response (PyVal.dict bodyFields) =
      Except.ok (PyVal.dict hwFields) := by
    simp [check_response, hhw]
  have hps : parse_status (PyVal.dict hwFields) =
      Except.ok ("Изменился статус проверки работы \"" ++ pyToString name
        ++ "\". " ++ verdict) := by
    simp [parse_status, hname, hstat, hverd]
  have hgi : pyGetItem (PyVal.dict hwFields) "status" =
      Except.ok (PyVal.str s) := by
    simp [pyGetItem, hstat]
  have h1 : cycleTry env resp Transport.success st =
      ([String.take ("Изменился статус проверки работы \""
          ++ pyToString name ++ "\". " ++ verdict) LENGTH],
        Except.ok { st with status := PyVal.str s }) := by
    simp only [cycleTry, htok, hapi, hcr, hps, hgi, hdiff, send_message,
      Bool.false_eq_true, if_false]
  unfold cycle
  rw [h1]

/-- C1 witness: tracked status `''`, incoming record status `rejected`. -/
theorem c1_transition_sends_one_notification_witness :
    cycle
        { practicumToken := some "p", telegramToken := some "t",
          telegramChatId := some "c" }
        { connError := false, statusCode := 200, text := "",
          body := PyVal.dict [("homeworks", PyVal.list [PyVal.dict
            [("homework_name", PyVal.str "hw1"),
             ("status", PyVal.str "rejected")]])] }
        Transport.success
        { timestamp := 100, status := PyVal.str "", newError := none } =
      { state := { timestamp := 100, status := PyVal.str "rejected",
                   newError := none },
        sent := [String.take ("Изменился статус проверки работы \""
          ++ pyToString (PyVal.str "hw1") ++ "\". "
          ++ "Работа проверена: у ревьюера есть замечания.") LENGTH],
        exitCode := none, crash := none } :=
  c1_transition_sends_one_notification _ _ _ _ _ _ _ _ _
    rfl rfl rfl rfl rfl rfl rfl

/-- C2: two consecutive cycles that both fail — the first with a connection
error, the second with an HTTP 500, so with two different failure
messages — send no error notification at all: the guard
`not sys.exc_info() and error != new_error` at line 166 is always false
inside the handler, so neither the first occurrence nor the changed failure
is relayed to the channel (the state, including `new_error`, is unchanged). -/
theorem c2_failure_notifications_never_sent :
    cycle
        { practicumToken := some "p", telegramToken := some "t",
          telegramChatId := some "c" }
        { connError := true, statusCode := 200, text := "",
          body := PyVal.dict [] }
        Transport.success
        { timestamp := 100, status := PyVal.str "", newError := none } =
      { state := { timestamp := 100, status := PyVal.str "",
                   newError := none },
        sent := [], exitCode := none, crash := none } ∧
    cycle
        { practicumToken := some "p", telegramToken := some "t",
          telegramChatId := some "c" }
        { connError := false, statusCode := 500, text := "boom",
          body := PyVal.dict [] }
        Transport.success
        { timestamp := 100, status := PyVal.str "", newError := none } =
      { state := { timestamp := 100, status := PyVal.str "",
                   newError := none },
        sent := [], exitCode := none, crash := none } ∧
    (cycleTry
        { practicumToken := some "p", telegramToken := some "t",
          telegramChatId := some "c" }
        { connError := true, statusCode := 200, text := "",
          body := PyVal.dict [] }
        Transport.success
        { timestamp := 100, status := PyVal.str "", newError := none }).2 =
      Except.error (Exc.ConnectionError "непроходит запрос к Yandex API.") ∧
    (cycleTry
        { practicumToken := some "p", telegramToken := some "t",
          telegramChatId := some "c" }
        { connError := false, statusCode := 500, text := "boom",
          body := PyVal.dict [] }
        Transport.success
        { timestamp := 100, status := PyVal.str "", newError := none }).2 =
      Except.error (Exc.HTTPException
        "ошибка авторизации от Yandex API. Код ответа: 500, сообщение об ошибке: boom") :=
  ⟨rfl, rfl, rfl, rfl⟩

/-- C3 counterexample: a cycle that completes successfully against an
answer carrying the server cursor `current_date = 999` leaves the poll
cursor at its previous value 100 — `main` never assigns `timestamp` — so
the cursor is not advanced to the server-reported value. -/
theorem c3_cursor_not_advanced_counterexample :
    (cycleTry
        { practicumToken := some "p", telegramToken := some "t",
          telegramChatId := some "c" }
        { connError := false, statusCode := 200, text := "",
          body := PyVal.dict [("homeworks", PyVal.list [PyVal.dict
            [("homework_name", PyVal.str "hw1"),
             ("status", PyVal.str "approved")]]),
            ("current_date", PyVal.int 999)] }
        Transport.success
        { timestamp := 100, status := PyVal.str "", newError := none }).2 =
      Except.ok { timestamp := 100, status := PyVal.str "approved",
                  newError := none } ∧
    (cycle
        { practicumToken := some "p", telegramToken := some "t",
          telegramChatId := some "c" }
        { connError := false, statusCode := 200, text := "",
          body := PyVal.dict [("homeworks", PyVal.list [PyVal.dict
            [("homework_name", PyVal.str "hw1"),
             ("status", PyVal.str "approved")]]),
            ("current_date", PyVal.int 999)] }
        Transport.success
        { timestamp := 100, status := PyVal.str "", newError := none }).state.timestamp
      = 100 ∧
    pyLookup [("homeworks", PyVal.list [PyVal.dict
        [("homework_name", PyVal.str "hw1"),
         ("status", PyVal.str "approved")]]),
        ("current_date", PyVal.int 999)] "current_date" = some (PyVal.int 999) ∧
    (100 : Int) ≠ 999 := ⟨rfl, rfl, rfl, by decide⟩

/-- Helper: a normally-completing `try` block only ever changes the `status`
field of the loop state; `timestamp` and `new_error` are untouched. -/
theorem cycleTry_ok_frame (env : Env) (resp : HttpResp) (tr : Transport)
    (st : LoopState) (sent : List String) (st2 : LoopState)
    (h : cycleTry env resp tr st = (sent, Except.ok st2)) :
    st2.timestamp = st.timestamp ∧ st2.newError = st.newError := by
  unfold cycleTry at h
  repeat' split at h
  all_goals simp_all
  all_goals obtain ⟨h1, h2⟩ := h
  all_goals subst h2
  all_goals exact ⟨rfl, rfl⟩

/-- C3 amended: after every cycle — successful or failed — the poll cursor
is unchanged (the code never reads the server-reported cursor nor assigns
`timestamp`); and after every cycle that ends in failure the entire loop
state, in particular the tracked status, is unchanged. -/
theorem c3_cursor_never_advances_failure_frame (env : Env) (resp : HttpResp)
    (tr : Transport) (st : LoopState) :
    (cycle env resp tr st).state.timestamp = st.timestamp ∧
    (cycleFails env resp tr st → (cycle env resp tr st).state = st) := by
  rcases hh : cycleTry env resp tr st with ⟨sent, res⟩
  cases res with
  | ok st2 =>
    have hfr := cycleTry_ok_frame env resp tr st sent st2 hh
    constructor
    · simp [cycle, hh, hfr.1]
    · intro hf
      rcases hf with ⟨s2, e2, he⟩
      rw [hh] at he
      simp at he
  | error e =>
    have hstate : (cycle env resp tr st).state = st := by
      cases e <;> simp [cycle, hh, sys_exc_info_truthy]
    exact ⟨by rw [hstate], fun _ => hstate⟩

/-- C3 amended witness: a connection-failure cycle from timestamp 42. -/
theorem c3_cursor_never_advances_failure_frame_witness :
    (cycle
        { practicumToken := some "p", telegramToken := some "t",
          telegramChatId := some "c" }
        { connError := true, statusCode := 200, text := "",
          body := PyVal.dict [] }
        Transport.success
        { timestamp := 42, status := PyVal.str "", newError := none }).state.timestamp
      = 42 ∧
    (cycle
        { practicumToken := some "p", telegramToken := some "t",
          telegramChatId := some "c" }
        { connError := true, statusCode := 200, text := "",
          body := PyVal.dict [] }
        Transport.success
        { timestamp := 42, status := PyVal.str "", newError := none }).state =
      { timestamp := 42, status := PyVal.str "", newError := none } :=
  ⟨(c3_cursor_never_advances_failure_frame _ _ _ _).1,
   (c3_cursor_never_advances_failure_frame _ _ _ _).2
     ⟨[], Exc.ConnectionError "непроходит запрос к Yandex API.", rfl⟩⟩

/-- Helper: `get_api_answer` never raises `SystemExit`. -/
theorem get_api_answer_not_exit (resp : HttpResp) (c : Option Int) :
    get_api_answer resp ≠ Except.error (Exc.SystemExit c) := by
  unfold get_api_answer
  repeat' split
  all_goals simp

/-- Helper: `check_response` never raises `SystemExit`. -/
theorem check_response_not_exit (r : PyVal) (c : Option Int) :
    check_response r ≠ Except.error (Exc.SystemExit c) := by
  unfold check_response
  repeat' split
  all_goals simp

/-- Helper: `parse_status` never raises `SystemExit`. -/
theorem parse_status_not_exit (hw : PyVal) (c : Option Int) :
    parse_status hw ≠ Except.error (Exc.SystemExit c) := by
  unfold parse_status
  repeat' split
  all_goals simp

/-- Helper: Python subscription never raises `SystemExit`. -/
theorem pyGetItem_not_exit (v : PyVal) (k : String) (c : Option Int) :
    pyGetItem v k ≠ Except.error (Exc.SystemExit c) := by
  unfold pyGetItem
  repeat' split
  all_goals simp

/-- Helper: `send_message` never raises `SystemExit`. -/
theorem send_message_not_exit (tr : Transport) (m : String)
    (sent : List String) (c : Option Int) :
    send_message tr m ≠ (sent, Except.error (Exc.SystemExit c)) := by
  unfold send_message
  cases tr <;> simp

/-- Helper: a `SystemExit` escaping the `try` block can only come from
`check_tokens` — every later step raises other exceptions. -/
theorem cycleTry_exit_from_tokens (env : Env) (resp : HttpResp)
    (tr : Transport) (st : LoopState) (sent : List String) (c : Option Int)
    (h : cycleTry env resp tr st = (sent, Except.error (Exc.SystemExit c))) :
    check_tokens env = Except.error (Exc.SystemExit c) := by
  unfold cycleTry at h
  repeat' split at h
  all_goals simp_all [get_api_answer_not_exit, check_response_not_exit,
    parse_status_not_exit, pyGetItem_not_exit, send_message_not_exit]

/-- C5 counterexample: when delivery raises `TelegramError`,
`send_message` catches it, logs it — and then re-raises a generic
`Exception`, so the failure does propagate out of `send_message`. -/
theorem c5_send_message_raises_counterexample :
    (send_message Transport.telegramError "hello").2 =
      Except.error (Exc.GenericExc "сбой при отправке сообщения в Telegram") := rfl

/-- C5 amended: a `TelegramError` during delivery is caught inside
`send_message` and logged, but `send_message` re-raises it as a generic
`Exception`; that exception is caught at the poll loop's cycle boundary
(`except Exception`), so with the configuration present the cycle neither
exits the process nor lets any exception escape the loop. -/
theorem c5_delivery_failure_caught_at_cycle (env : Env) (resp : HttpResp)
    (st : LoopState) (m : String)
    (htok : check_tokens env = Except.ok true) :
    (send_message Transport.telegramError m).2 =
      Except.error (Exc.GenericExc "сбой при отправке сообщения в Telegram") ∧
    (cycle env resp Transport.telegramError st).exitCode = none ∧
    (cycle env resp Transport.telegramError st).crash = none := by
  have hkey : (cycle env resp Transport.telegramError st).exitCode = none ∧
      (cycle env resp Transport.telegramError st).crash = none := by
    rcases hh : cycleTry env resp Transport.telegramError st with ⟨sent, res⟩
    cases res with
    | ok st2 => constructor <;> simp [cycle, hh]
    | error e =>
      cases e with
      | SystemExit c =>
        have := cycleTry_exit_from_tokens _ _ _ _ _ _ hh
        rw [htok] at this
        exact absurd this (by simp)
      | ConnectionError a => constructor <;> simp [cycle, hh, sys_exc_info_truthy]
      | HTTPException a => constructor <;> simp [cycle, hh, sys_exc_info_truthy]
      | RequestException a => constructor <;> simp [cycle, hh, sys_exc_info_truthy]
      | TypeError a => constructor <;> simp [cycle, hh, sys_exc_info_truthy]
      | KeyError a => constructor <;> simp [cycle, hh, sys_exc_info_truthy]
      | IndexError => constructor <;> simp [cycle, hh, sys_exc_info_truthy]
      | YandexAPIRequestError a => constructor <;> simp [cycle, hh, sys_exc_info_truthy]
      | GenericExc a => constructor <;> simp [cycle, hh, sys_exc_info_truthy]
  exact ⟨rfl, hkey.1, hkey.2⟩

/-- C5 witness: a transition cycle whose delivery fails. -/
theorem c5_delivery_failure_caught_at_cycle_witness :
    (send_message Transport.telegramError "hi").2 =
      Except.error (Exc.GenericExc "сбой при отправке сообщения в Telegram") ∧
    (cycle
        { practicumToken := some "p", telegramToken := some "t",
          telegramChatId := some "c" }
        { connError := false, statusCode := 200, text := "",
          body := PyVal.dict [("homeworks", PyVal.list [PyVal.dict
            [("homework_name", PyVal.str "hw1"),
             ("status", PyVal.str "approved")]])] }
        Transport.telegramError
        { timestamp := 3, status := PyVal.str "", newError := none }).exitCode
      = none ∧
    (cycle
        { practicumToken := some "p", telegramToken := some "t",
          telegramChatId := some "c" }
        { connError := false, statusCode := 200, text := "",
          body := PyVal.dict [("homeworks", PyVal.list [PyVal.dict
            [("homework_name", PyVal.str "hw1"),
             ("status", PyVal.str "approved")]])] }
        Transport.telegramError
        { timestamp := 3, status := PyVal.str "", newError := none }).crash
      = none :=
  c5_delivery_failure_caught_at_cycle _ _ _ _ rfl
